import Mathlib

/-!
Verification of the RAG pipeline in the SageMaker + Astra DB notebook
(`docs/pages/aiml/aws/notebooks/sagemaker.ipynb`).

The notebook's own code is a thin orchestration layer over two external
collaborators: the vector store (reached through
`astra_v_store.similarity_search`) and the LLM (reached through
`llm.invoke`).  We embed the notebook's functions shallowly: the two
collaborators become fields of an `Env` record, Python exceptions become
`Except Err`, Python dictionaries become association lists, and Python
truthiness of the optional `order` string is modelled explicitly.
-/

/-- Errors that can surface through the pipeline: a Python `KeyError` from a
metadata dictionary lookup, plus the error taxonomy the specification names
for the external collaborators. -/
inductive Err where
  | keyError (key : String)
  | invalidArgument (msg : String)
  | serviceError (msg : String)
  | quotaError (msg : String)
  deriving DecidableEq, Repr

/-- A document returned by `astra_v_store.similarity_search`: LangChain's
`Document` with its `metadata` dictionary (string keys and values here) and
its `page_content` text. -/
structure Doc where
  metadata : List (String × String)
  page_content : String
  deriving DecidableEq, Repr

/-- The two external collaborators the notebook's pipeline calls:
`astra_v_store.similarity_search(observation, k=k, filter=md)` and
`llm.invoke(prompt)`.  Both are remote calls that may fail. -/
structure Env where
  similarity_search : String → Int → List (String × String) → Except Err (List Doc)
  llm_invoke : String → Except Err String

instance {ε α : Type} [DecidableEq ε] [DecidableEq α] : DecidableEq (Except ε α) := fun x y =>
  match x, y with
  | .ok a, .ok b =>
      if h : a = b then .isTrue (by rw [h]) else .isFalse (fun hh => h (by cases hh; rfl))
  | .error a, .error b =>
      if h : a = b then .isTrue (by rw [h]) else .isFalse (fun hh => h (by cases hh; rfl))
  | .ok _, .error _ => .isFalse (fun hh => Except.noConfusion hh)
  | .error _, .ok _ => .isFalse (fun hh => Except.noConfusion hh)

/-- The character class Python's `str.strip()` removes by default. -/
def isPySpace (c : Char) : Bool :=
  c = ' ' || c = '\t' || c = '\n' || c = '\r' || c = '\x0b' || c = '\x0c'

/-- Python's `str.strip()`: drop leading and trailing whitespace. -/
def pyStrip (s : String) : String :=
  String.mk (((s.data.dropWhile isPySpace).reverse.dropWhile isPySpace).reverse)

/-- The metadata filter computed at the top of `find_similar_entries`:
Python's `if order:` is a truthiness test, so both `None` and the empty
string give the empty filter, and only a non-empty string gives
`\x7b"order": order\x7d`. -/
def order_filter : Option String → List (String × String)
  | some o => if o = "" then [] else [("order", o)]
  | none => []

/-- `find_similar_entries(observation, k=3, order=None)` from the notebook
(the `k=3` and `order=None` defaults are made explicit at call sites):
build the metadata filter from `order`, call
`astra_v_store.similarity_search(observation, k=k, filter=md)` and return
the documents unchanged. -/
def find_similar_entries (env : Env) (observation : String) (k : Int)
    (order : Option String) : Except Err (List Doc) :=
  let md : List (String × String) :=
    match order with
    | some o => if o = "" then [] else [("order", o)]
    | none => []
  env.similarity_search observation k md

/-- A Python dictionary lookup `m[key]`: raises `KeyError(key)` when the key
is absent. -/
def dict_get (m : List (String × String)) (key : String) : Except Err String :=
  match m.lookup key with
  | some v => Except.ok v
  | none => Except.error (Err.keyError key)

/-- One element of the list comprehension inside `describe_candidates`: the
f-string
`f"Candidate species \x7bi+1\x7d: \x27\x7bdoc.metadata[...]\x7d\x27 (order: ...)\nDescription: ...\n"`,
evaluating `doc.metadata["name"]` first, then `doc.metadata["order"]`. -/
def candidate_block (i : Nat) (doc : Doc) : Except Err String := do
  let name ← dict_get doc.metadata "name"
  let ord ← dict_get doc.metadata "order"
  pure ("Candidate species " ++ toString (i + 1) ++ ": \x27" ++ name ++
    "\x27 (order: " ++ ord ++ ")\nDescription: " ++ doc.page_content ++ "\n")

/-- `describe_candidates(matches)` from the notebook: the f-string blocks for
`enumerate(matches)` joined with `"\n"`.  A `KeyError` raised by any block
propagates (the first one, in order, as in the Python list comprehension). -/
def describe_candidates (found : List Doc) : Except Err String := do
  let blocks ← found.enum.mapM (fun p => candidate_block p.1 p.2)
  pure (String.intercalate "\n" blocks)

/-- The part of `PROMPT_TEMPLATE` before the `candidates` placeholder. -/
def PROMPT_PRE : String :=
  "\n<s>[INST] <<SYS>>\nYou are an expert entomologist tasked with helping specimen identification on the field.\nYou are given relevant excerpts from an invertebrate textbook along with my field observation.\nYour task is to compare my observation with the textbook excerpts and come to an identification,\nexplaining why you came to that conclusion and giving the degree of certainity.\nOnly use the information provided in the user observation to come to your conclusion!\nBe sure to provide, in your verdict, the species\x27 Order together with the full Latin name.\nKeep it short and informal, not like a letter, do not start with \x27Dear User\x27 or similar,\ndo not sign your communication.\n\nTEXTBOOK CANDIDATE MATCHES:\n"

/-- The part of `PROMPT_TEMPLATE` between the two placeholders. -/
def PROMPT_MID : String :=
  "\n\n<</SYS>>\n\nHere is my observation:\n"

/-- The part of `PROMPT_TEMPLATE` after the `observation` placeholder. -/
def PROMPT_POST : String :=
  "\n\nPlease assist me in the identification. [/INST]\n"

/-- The notebook's `PROMPT_TEMPLATE` constant, with its two `str.format`
placeholders. -/
def PROMPT_TEMPLATE : String :=
  PROMPT_PRE ++ "{candidates}" ++ PROMPT_MID ++ "{observation}" ++ PROMPT_POST

/-- `format_prompt(observation, candidates)` from the notebook:
`PROMPT_TEMPLATE.format(observation=..., candidates=...)`.  The template
contains exactly the two placeholders, so Python's `format` splices the two
values into the fixed surrounding text (inserted values are not re-scanned). -/
def format_prompt (observation : String) (candidates : String) : String :=
  PROMPT_PRE ++ candidates ++ PROMPT_MID ++ observation ++ PROMPT_POST

/-- `identify_and_suggest(observation, order=None)` from the notebook:
retrieve with `k=3`, serialize the matches, render the prompt, invoke the
LLM and strip the result.  Any exception raised along the way propagates. -/
def identify_and_suggest (env : Env) (observation : String)
    (order : Option String) : Except Err String := do
  let found ← find_similar_entries env observation 3 order
  let candidates_text ← describe_candidates found
  let prompt := format_prompt observation candidates_text
  let result ← env.llm_invoke prompt
  pure (pyStrip result)

/-- The final-app `while True` input loop, run over a finite list of input
lines: each line is stripped; a line that strips to empty breaks the loop;
otherwise `identify_and_suggest(observation)` is invoked on the stripped
text.  The function records the observations the pipeline is invoked on; an
uncaught error from `identify_and_suggest` aborts the loop (the exception
propagates out of the cell). -/
def loop_invocations (env : Env) : List String → List String
  | [] => []
  | line :: rest =>
    let observation := pyStrip line
    if observation = "" then []
    else
      observation ::
        (match identify_and_suggest env observation none with
         | Except.ok _ => loop_invocations env rest
         | Except.error _ => [])

/-- An entry of the example dataset, with the three fields the ingestion
cells read (`name`, `order`, `description`). -/
structure Entry where
  name : String
  order : String
  description : String
  deriving DecidableEq, Repr

/-- `texts = [entry["description"] for entry in sample_dataset]`. -/
def texts (ds : List Entry) : List String := ds.map (fun e => e.description)

/-- `metadatas = [\x7b"name": ..., "order": ...\x7d for entry in sample_dataset]`. -/
def metadatas (ds : List Entry) : List (List (String × String)) :=
  ds.map (fun e => [("name", e.name), ("order", e.order)])

/-- `ids = [entry["name"].lower().replace(" ", "_") for entry in sample_dataset]`. -/
def ids (ds : List Entry) : List String :=
  ds.map (fun e => (e.name.toLower).replace " " "_")

/-- A stored record: its text and its metadata (the embedding vector is a
deterministic function of the text, so it is omitted from the model). -/
abbrev VRecord := String × List (String × String)

/-- A vector collection: stored records keyed by id, in insertion order. -/
abbrev VColl := List (String × VRecord)

/-- Modelled from the spec: one record's upsert inside the vector store
(the notebook delegates this to `astra_v_store.add_texts`, whose code lives
in the external LangChain/Astra DB libraries).  Per the specification's
VectorStore contract, an id collision overwrites the prior record; a fresh
id appends. -/
def upsert_one (store : VColl) (id : String) (r : VRecord) : VColl :=
  if store.any (fun p => p.1 == id) then
    store.map (fun p => if p.1 == id then (id, r) else p)
  else
    store ++ [(id, r)]

/-- Modelled from the spec: `astra_v_store.add_texts(texts, metadatas, ids)`
as a batch of per-record upserts, in order. -/
def add_texts (store : VColl) (recs : List (String × VRecord)) : VColl :=
  recs.foldl (fun s pr => upsert_one s pr.1 pr.2) store

/-- The (id, record) batch the ingestion cells hand to `add_texts`. -/
def ingestion (ds : List Entry) : List (String × VRecord) :=
  List.zip (ids ds) (List.zip (texts ds) (metadatas ds))

/-- The candidate block exactly as the specification words it:
`"Candidate species i: \x27<name>\x27 (order: <order>)\nDescription: <text>"`,
with no trailing newline.  Kept separate from `candidate_block` (translated
from the code) so the two serializations can be compared. -/
def spec_candidate_block (i : Nat) (name : String) (ord : String)
    (text : String) : String :=
  "Candidate species " ++ toString i ++ ": \x27" ++ name ++ "\x27 (order: " ++
    ord ++ ")\nDescription: " ++ text

/-- A store/LLM pair that always succeeds: the search finds nothing and the
generator returns a fixed non-empty completion. -/
def okEnv : Env :=
  { similarity_search := fun _ _ _ => Except.ok []
    llm_invoke := fun _ => Except.ok "generated answer " }

/-- A store that reflects the filter it was called with back into the
returned document, so a theorem can observe which filter reached it. -/
def spyEnv : Env :=
  { similarity_search := fun obs _ md => Except.ok [{ metadata := md, page_content := obs }]
    llm_invoke := fun p => Except.ok p }

/-- A store that errors exactly when queried with `k = 3`, so a theorem can
observe that the pipeline hard-codes `k = 3`. -/
def k3TrapEnv : Env :=
  { similarity_search := fun _ k _ =>
      if k == 3 then Except.error (Err.serviceError "search invoked with k = 3")
      else Except.ok []
    llm_invoke := fun _ => Except.ok "answer" }

/-- A store returning one well-formed match, with an LLM that echoes its
prompt, so a theorem can observe the exact rendered prompt. -/
def echoEnv : Env :=
  { similarity_search := fun _ _ _ =>
      Except.ok [{ metadata := [("name", "a"), ("order", "b")], page_content := "c" }]
    llm_invoke := fun p => Except.ok p }

/-- A store whose one match lacks the `"order"` metadata key. -/
def badKeyEnv : Env :=
  { similarity_search := fun _ _ _ =>
      Except.ok [{ metadata := [("name", "a")], page_content := "t" }]
    llm_invoke := fun _ => Except.ok "x" }

/-- A store whose search always fails with a service error. -/
def downEnv : Env :=
  { similarity_search := fun _ _ _ => Except.error (Err.serviceError "down")
    llm_invoke := fun _ => Except.ok "x" }

set_option maxRecDepth 40000

theorem find_similar_entries_eq (env : Env) (obs : String) (k : Int)
    (order : Option String) :
    find_similar_entries env obs k order =
      env.similarity_search obs k (order_filter order) := by
  cases order with
  | none => rfl
  | some o => rfl

theorem identify_and_suggest_def (env : Env) (obs : String) (order : Option String) :
    identify_and_suggest env obs order =
      (find_similar_entries env obs 3 order).bind (fun found =>
        (describe_candidates found).bind (fun candidates_text =>
          (env.llm_invoke (format_prompt obs candidates_text)).bind (fun result =>
            Except.ok (pyStrip result)))) := rfl

theorem mapM_cb_cons (n : Nat) (d : Doc) (ds : List Doc) :
    (List.enumFrom n (d :: ds)).mapM (fun p => candidate_block p.1 p.2) =
      (candidate_block n d).bind (fun b =>
        ((List.enumFrom (n + 1) ds).mapM (fun p => candidate_block p.1 p.2)).bind (fun bs =>
          Except.ok (b :: bs))) := by
  show ((n, d) :: List.enumFrom (n + 1) ds).mapM (fun p => candidate_block p.1 p.2) = _
  rw [List.mapM_cons]
  rfl

theorem ok_bind {α β : Type} (a : α) (f : α → Except Err β) :
    (Except.ok a : Except Err α) >>= f = f a := rfl

theorem error_bind {α β : Type} (e : Err) (f : α → Except Err β) :
    (Except.error e : Except Err α) >>= f = Except.error e := rfl

theorem map_ok {α β : Type} (f : α → β) (a : α) :
    f <$> (Except.ok a : Except Err α) = Except.ok (f a) := rfl

theorem map_error {α β : Type} (f : α → β) (e : Err) :
    f <$> (Except.error e : Except Err α) = Except.error e := rfl

theorem mapM_blocks_ok (ds : List Doc) :
    ∀ n : Nat,
      (∀ d ∈ ds, (d.metadata.lookup "name").isSome ∧ (d.metadata.lookup "order").isSome) →
      ∃ bs, (List.enumFrom n ds).mapM (fun p => candidate_block p.1 p.2) = Except.ok bs := by
  induction ds with
  | nil => exact fun n _ => ⟨[], rfl⟩
  | cons d ds ih =>
    intro n h
    have hd := h d (List.mem_cons_self d ds)
    obtain ⟨nm, hnm⟩ := Option.isSome_iff_exists.mp hd.1
    obtain ⟨od, hod⟩ := Option.isSome_iff_exists.mp hd.2
    obtain ⟨bs, hbs⟩ := ih (n + 1) (fun d' hd' => h d' (List.mem_cons_of_mem _ hd'))
    cases hcb : candidate_block n d with
    | error e => simp [candidate_block, dict_get, hnm, hod, ok_bind, map_ok] at hcb
    | ok b =>
      refine ⟨b :: bs, ?_⟩
      rw [mapM_cb_cons, hcb]
      show ((List.enumFrom (n + 1) ds).mapM (fun p => candidate_block p.1 p.2)).bind
        (fun bs' => Except.ok (b :: bs')) = Except.ok (b :: bs)
      rw [hbs]
      rfl

theorem mapM_blocks_err (ds : List Doc) :
    ∀ n : Nat,
      (∃ d ∈ ds, (d.metadata.lookup "name").isNone ∨ (d.metadata.lookup "order").isNone) →
      ∃ key, (List.enumFrom n ds).mapM (fun p => candidate_block p.1 p.2) =
        Except.error (Err.keyError key) := by
  induction ds with
  | nil => intro n h; simp at h
  | cons d ds ih =>
    intro n h
    cases hnm : d.metadata.lookup "name" with
    | none =>
      refine ⟨"name", ?_⟩
      have hblk : candidate_block n d = Except.error (Err.keyError "name") := by
        simp [candidate_block, dict_get, hnm, ok_bind, error_bind, map_ok, map_error]
      rw [mapM_cb_cons, hblk]
      rfl
    | some nm =>
      cases hod : d.metadata.lookup "order" with
      | none =>
        refine ⟨"order", ?_⟩
        have hblk : candidate_block n d = Except.error (Err.keyError "order") := by
          simp [candidate_block, dict_get, hnm, hod, ok_bind, error_bind, map_ok, map_error]
        rw [mapM_cb_cons, hblk]
        rfl
      | some od =>
        have hds : ∃ d' ∈ ds,
            (d'.metadata.lookup "name").isNone ∨ (d'.metadata.lookup "order").isNone := by
          obtain ⟨d', hd', hbad⟩ := h
          rcases List.mem_cons.mp hd' with rfl | hmem
          · simp [hnm, hod] at hbad
          · exact ⟨d', hmem, hbad⟩
        obtain ⟨key, hkey⟩ := ih (n + 1) hds
        cases hcb : candidate_block n d with
        | error e => simp [candidate_block, dict_get, hnm, hod, ok_bind, map_ok] at hcb
        | ok b =>
          refine ⟨key, ?_⟩
          rw [mapM_cb_cons, hcb]
          show ((List.enumFrom (n + 1) ds).mapM (fun p => candidate_block p.1 p.2)).bind
            (fun bs' => Except.ok (b :: bs')) = Except.error (Err.keyError key)
          rw [hkey]
          rfl

/-- C1 (counterexample): with a store returning one match named `a` of order
`b` with description `c`, and an LLM that echoes its prompt, the pipeline's
answer is the stripped prompt rendered from the code's serialization, whose
block ends in a newline — and that differs from the composition rendered
with the block format exactly as the claim words it (no trailing newline). -/
theorem c1_counterexample :
    identify_and_suggest echoEnv "obs" none =
      Except.ok (pyStrip (format_prompt "obs"
        "Candidate species 1: \x27a\x27 (order: b)\nDescription: c\n")) ∧
    pyStrip (format_prompt "obs"
        "Candidate species 1: \x27a\x27 (order: b)\nDescription: c\n") ≠
      pyStrip (format_prompt "obs" (spec_candidate_block 1 "a" "b" "c")) ∧
    identify_and_suggest echoEnv "obs" none ≠
      Except.ok (pyStrip (format_prompt "obs" (spec_candidate_block 1 "a" "b" "c"))) :=
  ⟨rfl, by decide, by decide⟩

/-- C1 (amended): `identify_and_suggest` is exactly the composition
retrieve (k = 3) → serialize → substitute into the template → generate →
strip, where each match serializes to the fixed-format block
`"Candidate species i: \x27<name>\x27 (order: <order>)\nDescription: <text>"`
followed by a trailing newline, the blocks being joined with a newline. -/
theorem c1_pipeline_composition (env : Env) (obs : String) (order : Option String) :
    identify_and_suggest env obs order =
      (find_similar_entries env obs 3 order).bind (fun found =>
        (describe_candidates found).bind (fun candidates_text =>
          (env.llm_invoke (format_prompt obs candidates_text)).bind (fun result =>
            Except.ok (pyStrip result)))) ∧
    ∀ (i : Nat) (name ord text : String),
      candidate_block i { metadata := [("name", name), ("order", ord)], page_content := text } =
        Except.ok (spec_candidate_block (i + 1) name ord text ++ "\n") := by
  refine ⟨rfl, fun i name ord text => ?_⟩
  simp [candidate_block, dict_get, spec_candidate_block, List.lookup, ok_bind,
    String.append_assoc]

/-- C2 (counterexample): passing the empty string as `order` — an order
argument that is given — yields the empty filter, not the filter
`[("order", "")]`: observed through a store that reflects its filter back. -/
theorem c2_counterexample :
    find_similar_entries spyEnv "x" 3 (some "") = spyEnv.similarity_search "x" 3 [] ∧
    find_similar_entries spyEnv "x" 3 (some "") ≠
      spyEnv.similarity_search "x" 3 [("order", "")] :=
  ⟨rfl, by decide⟩

/-- C2 (amended): `find_similar_entries` calls the store's similarity search
with filter `[("order", o)]` when a non-empty order string is given, and
with the empty filter when the order is absent or the empty string, always
returning the resulting match sequence unchanged. -/
theorem c2_retrieve_filter (env : Env) (obs : String) (k : Int) (o : String)
    (ho : o ≠ "") :
    find_similar_entries env obs k (some o) = env.similarity_search obs k [("order", o)] ∧
    find_similar_entries env obs k none = env.similarity_search obs k [] ∧
    find_similar_entries env obs k (some "") = env.similarity_search obs k [] := by
  refine ⟨?_, rfl, rfl⟩
  simp [find_similar_entries, ho]

/-- Witness for C2 (amended), at a concrete non-empty order. -/
theorem c2_retrieve_filter_witness :
    find_similar_entries spyEnv "x" 2 (some "Odonata") =
      spyEnv.similarity_search "x" 2 [("order", "Odonata")] :=
  (c2_retrieve_filter spyEnv "x" 2 "Odonata" (by decide)).1

/-- C3: on zero matches, the serialized candidates block is the empty
string, the template still renders, the generator is still invoked, and the
pipeline returns its stripped output — non-empty whenever that output strips
to something non-empty — rather than failing. -/
theorem c3_empty_matches (env : Env) (obs : String) (order : Option String) (s : String)
    (h1 : find_similar_entries env obs 3 order = Except.ok [])
    (h2 : env.llm_invoke (format_prompt obs "") = Except.ok s) :
    describe_candidates [] = Except.ok "" ∧
    identify_and_suggest env obs order = Except.ok (pyStrip s) ∧
    (pyStrip s ≠ "" → ∃ t, identify_and_suggest env obs order = Except.ok t ∧ t ≠ "") := by
  have hstep : identify_and_suggest env obs order =
      (env.llm_invoke (format_prompt obs "")).bind (fun result =>
        Except.ok (pyStrip result)) := by
    rw [identify_and_suggest_def env obs order, h1]
    rfl
  have hans : identify_and_suggest env obs order = Except.ok (pyStrip s) := by
    rw [hstep, h2]
    rfl
  exact ⟨rfl, hans, fun hne => ⟨pyStrip s, hans, hne⟩⟩

/-- Witness for C3, at a store that finds nothing and a generator returning
a fixed completion. -/
theorem c3_empty_matches_witness :
    identify_and_suggest okEnv "field observation" none =
      Except.ok (pyStrip "generated answer ") ∧
    pyStrip "generated answer " ≠ "" :=
  ⟨(c3_empty_matches okEnv "field observation" none "generated answer " rfl rfl).2.1,
   by decide⟩

/-- C4 (counterexample): with `k = 0` the retrieval does not fail with
`InvalidArgument`; it performs the search and returns the store's answer. -/
theorem c4_counterexample :
    find_similar_entries okEnv "obs" 0 none = Except.ok [] ∧
    (find_similar_entries okEnv "obs" 0 none).isOk = true :=
  ⟨rfl, rfl⟩

/-- C4 (amended): for `k ≤ 0` (as for every `k`) `find_similar_entries`
performs no validation: it forwards `k` to the store's similarity search
unchanged, so any `InvalidArgument` failure can only originate in the store. -/
theorem c4_no_k_validation (env : Env) (obs : String) (k : Int)
    (order : Option String) (hk : k ≤ 0) :
    find_similar_entries env obs k order = env.similarity_search obs k (order_filter order) ∧
    ∀ msg, find_similar_entries env obs k order = Except.error (Err.invalidArgument msg) →
      env.similarity_search obs k (order_filter order) =
        Except.error (Err.invalidArgument msg) := by
  refine ⟨find_similar_entries_eq env obs k order, fun msg hmsg => ?_⟩
  rw [← find_similar_entries_eq env obs k order]
  exact hmsg

/-- Witness for C4 (amended), at `k = 0`. -/
theorem c4_no_k_validation_witness :
    find_similar_entries okEnv "obs" 0 none =
      okEnv.similarity_search "obs" 0 (order_filter none) :=
  (c4_no_k_validation okEnv "obs" 0 none (by decide)).1

/-- C5: an error raised by the similarity search, or by the generation call
on the rendered prompt, surfaces out of `identify_and_suggest` unchanged —
the very same error value, with no ok-result returned in its place. -/
theorem c5_error_propagation (env : Env) (obs : String) (order : Option String) (e : Err) :
    (find_similar_entries env obs 3 order = Except.error e →
      identify_and_suggest env obs order = Except.error e) ∧
    (∀ found ct, find_similar_entries env obs 3 order = Except.ok found →
      describe_candidates found = Except.ok ct →
      env.llm_invoke (format_prompt obs ct) = Except.error e →
      identify_and_suggest env obs order = Except.error e) := by
  constructor
  · intro h
    rw [identify_and_suggest_def env obs order, h]
    rfl
  · intro found ct h1 hdc h2
    rw [identify_and_suggest_def env obs order, h1]
    show (describe_candidates found).bind (fun candidates_text =>
      (env.llm_invoke (format_prompt obs candidates_text)).bind (fun result =>
        Except.ok (pyStrip result))) = Except.error e
    rw [hdc]
    show (env.llm_invoke (format_prompt obs ct)).bind (fun result =>
      Except.ok (pyStrip result)) = Except.error e
    rw [h2]
    rfl

/-- Witness for C5, at a store whose search fails with a service error. -/
theorem c5_error_propagation_witness :
    identify_and_suggest downEnv "o" none = Except.error (Err.serviceError "down") :=
  (c5_error_propagation downEnv "o" none (Err.serviceError "down")).1 rfl

theorem describe_candidates_def (found : List Doc) :
    describe_candidates found =
      (found.enum.mapM (fun p => candidate_block p.1 p.2)).bind (fun blocks =>
        Except.ok (String.intercalate "\n" blocks)) := by
  unfold describe_candidates
  cases hm : found.enum.mapM (fun p => candidate_block p.1 p.2) with
  | ok bs => rfl
  | error e => rfl

/-- C7 (counterexample): a store wired to fail exactly when queried with
`k = 3` makes `identify_and_suggest` fail even though no caller supplied any
`k`: the top-k value `3` is baked into the pipeline, not externally
supplied.  The same store accepts any other `k`. -/
theorem c7_counterexample :
    identify_and_suggest k3TrapEnv "obs" none =
      Except.error (Err.serviceError "search invoked with k = 3") ∧
    k3TrapEnv.similarity_search "obs" 7 [] = Except.ok [] :=
  ⟨rfl, rfl⟩

/-- C7 (amended): the prompt template and the generation client (with its
sampling parameters) enter the pipeline only through the externally supplied
constants and environment, but the similarity top-k is not externally
supplied: `identify_and_suggest` always queries the store with the baked-in
`k = 3`. -/
theorem c7_topk_hardcoded (env : Env) (obs : String) (order : Option String) :
    identify_and_suggest env obs order =
      (env.similarity_search obs 3 (order_filter order)).bind (fun found =>
        (describe_candidates found).bind (fun candidates_text =>
          (env.llm_invoke (format_prompt obs candidates_text)).bind (fun result =>
            Except.ok (pyStrip result)))) := by
  rw [identify_and_suggest_def env obs order, find_similar_entries_eq]

/-- C8 (counterexample): a whitespace-only input line is a non-empty line,
yet the loop performs zero pipeline invocations on it (it strips the line
and breaks), falsifying "exactly once per entered non-empty line". -/
theorem c8_counterexample :
    loop_invocations okEnv [" "] = [] ∧ (" " : String) ≠ "" :=
  ⟨rfl, by decide⟩

/-- C8 (amended): as long as the pipeline keeps succeeding, the loop invokes
`identify_and_suggest` exactly once per input line whose whitespace-stripped
text is non-empty (on that stripped text), in order, and stops at the first
line that strips to empty — never invoking the pipeline on or after it. -/
theorem c8_loop (env : Env) (inputs : List String)
    (hok : ∀ obs, ∃ r, identify_and_suggest env obs none = Except.ok r) :
    loop_invocations env inputs = (inputs.map pyStrip).takeWhile (fun s => s != "") := by
  induction inputs with
  | nil => rfl
  | cons line rest ih =>
    by_cases hline : pyStrip line = ""
    · simp [loop_invocations, hline, List.takeWhile_cons]
    · obtain ⟨r, hr⟩ := hok (pyStrip line)
      simp [loop_invocations, hline, hr, List.takeWhile_cons, ih]

/-- Witness for C8 (amended): two productive lines, then a terminating empty
line, then a line the loop must never reach. -/
theorem c8_loop_witness :
    loop_invocations okEnv ["a", " b ", "", "c"] =
      ((["a", " b ", "", "c"].map pyStrip).takeWhile (fun s => s != "")) :=
  c8_loop okEnv ["a", " b ", "", "c"]
    (fun _ => ⟨pyStrip "generated answer ", rfl⟩)

/-- C10: serializing candidates needs every match's metadata to hold both
the `"name"` and the `"order"` key: under that precondition the lookups in
`describe_candidates` always succeed, a match lacking either key makes
serialization raise a `KeyError`, and any serialization error makes
`identify_and_suggest` fail with that very error no matter what the
generation client would have answered — generation is never reached. -/
theorem c10_metadata_keys (env : Env) (g : String → Except Err String) (obs : String)
    (order : Option String) (found : List Doc) (e : Err)
    (hs : env.similarity_search obs 3 (order_filter order) = Except.ok found) :
    ((∀ d ∈ found, (d.metadata.lookup "name").isSome ∧ (d.metadata.lookup "order").isSome) →
      ∃ s, describe_candidates found = Except.ok s) ∧
    ((∃ d ∈ found, (d.metadata.lookup "name").isNone ∨ (d.metadata.lookup "order").isNone) →
      ∃ key, describe_candidates found = Except.error (Err.keyError key)) ∧
    (describe_candidates found = Except.error e →
      identify_and_suggest { env with llm_invoke := g } obs order = Except.error e) := by
  refine ⟨?_, ?_, ?_⟩
  · intro h
    obtain ⟨bs, hbs⟩ := mapM_blocks_ok found 0 h
    refine ⟨String.intercalate "\n" bs, ?_⟩
    rw [describe_candidates_def]
    show ((List.enumFrom 0 found).mapM (fun p => candidate_block p.1 p.2)).bind
      (fun blocks => Except.ok (String.intercalate "\n" blocks)) =
      Except.ok (String.intercalate "\n" bs)
    rw [hbs]
    rfl
  · intro h
    obtain ⟨key, hkey⟩ := mapM_blocks_err found 0 h
    refine ⟨key, ?_⟩
    rw [describe_candidates_def]
    show ((List.enumFrom 0 found).mapM (fun p => candidate_block p.1 p.2)).bind
      (fun blocks => Except.ok (String.intercalate "\n" blocks)) =
      Except.error (Err.keyError key)
    rw [hkey]
    rfl
  · intro hdc
    rw [identify_and_suggest_def]
    have hf : find_similar_entries { env with llm_invoke := g } obs 3 order =
        Except.ok found := by
      rw [find_similar_entries_eq]
      exact hs
    rw [hf]
    show (describe_candidates found).bind (fun candidates_text =>
      (Env.llm_invoke { env with llm_invoke := g } (format_prompt obs candidates_text)).bind
        (fun result => Except.ok (pyStrip result))) = Except.error e
    rw [hdc]
    rfl

/-- Witness for C10: a match whose metadata lacks the `"order"` key makes
`answer` fail with `KeyError "order"` whatever the generator would return. -/
theorem c10_metadata_keys_witness :
    identify_and_suggest { badKeyEnv with llm_invoke := fun _ => Except.ok "ignored" }
      "o" none = Except.error (Err.keyError "order") :=
  (c10_metadata_keys badKeyEnv (fun _ => Except.ok "ignored") "o" none
    [{ metadata := [("name", "a")], page_content := "t" }] (Err.keyError "order")
    rfl).2.2 rfl

theorem fst_upsert_one_any (store : VColl) (id : String) (r : VRecord)
    (h : store.any (fun p => p.1 == id) = true) :
    (upsert_one store id r).map Prod.fst = store.map Prod.fst := by
  simp only [upsert_one, h, if_true]
  rw [List.map_map]
  apply List.map_congr_left
  intro p hp
  by_cases hpid : p.1 = id
  · simp [Function.comp, hpid]
  · simp [Function.comp, hpid]

theorem fst_upsert_one_not_any (store : VColl) (id : String) (r : VRecord)
    (h : store.any (fun p => p.1 == id) = false) :
    (upsert_one store id r).map Prod.fst = store.map Prod.fst ++ [id] := by
  simp [upsert_one, h]

theorem mem_fst_upsert_one_self (store : VColl) (id : String) (r : VRecord) :
    id ∈ (upsert_one store id r).map Prod.fst := by
  cases h : store.any (fun p => p.1 == id) with
  | true =>
    rw [fst_upsert_one_any store id r h]
    obtain ⟨p, hp, hpid⟩ := List.any_eq_true.mp h
    exact (beq_iff_eq.mp hpid) ▸ List.mem_map_of_mem Prod.fst hp
  | false =>
    rw [fst_upsert_one_not_any store id r h]
    exact List.mem_append_right _ (List.mem_singleton_self id)

theorem mem_fst_upsert_one_of_mem (store : VColl) (id j : String) (r : VRecord)
    (hj : j ∈ store.map Prod.fst) : j ∈ (upsert_one store id r).map Prod.fst := by
  cases h : store.any (fun p => p.1 == id) with
  | true => rw [fst_upsert_one_any store id r h]; exact hj
  | false => rw [fst_upsert_one_not_any store id r h]; exact List.mem_append_left _ hj

theorem length_upsert_one_of_mem (store : VColl) (id : String) (r : VRecord)
    (hid : id ∈ store.map Prod.fst) : (upsert_one store id r).length = store.length := by
  have h : store.any (fun p => p.1 == id) = true := by
    obtain ⟨p, hp, hpid⟩ := List.mem_map.mp hid
    exact List.any_eq_true.mpr ⟨p, hp, by simp [hpid]⟩
  simp [upsert_one, h]

theorem mem_fst_add_texts_of_mem (recs : List (String × VRecord)) :
    ∀ (store : VColl) (j : String), j ∈ store.map Prod.fst →
      j ∈ (add_texts store recs).map Prod.fst := by
  induction recs with
  | nil => exact fun store j hj => hj
  | cons pr recs ih =>
    intro store j hj
    exact ih _ j (mem_fst_upsert_one_of_mem store pr.1 j pr.2 hj)

theorem mem_fst_add_texts_batch (recs : List (String × VRecord)) :
    ∀ (store : VColl) (j : String), j ∈ recs.map Prod.fst →
      j ∈ (add_texts store recs).map Prod.fst := by
  induction recs with
  | nil => intro store j hj; simp at hj
  | cons pr recs ih =>
    intro store j hj
    rw [List.map_cons] at hj
    rcases List.mem_cons.mp hj with hj1 | hj2
    · subst hj1
      exact mem_fst_add_texts_of_mem recs _ pr.1 (mem_fst_upsert_one_self store pr.1 pr.2)
    · exact ih _ j hj2

theorem length_add_texts_of_mem (recs : List (String × VRecord)) :
    ∀ store : VColl, (∀ j ∈ recs.map Prod.fst, j ∈ store.map Prod.fst) →
      (add_texts store recs).length = store.length := by
  induction recs with
  | nil => intro store _; rfl
  | cons pr recs ih =>
    intro store h
    have h1 : pr.1 ∈ store.map Prod.fst := h pr.1 (by simp)
    have h2 : ∀ j ∈ recs.map Prod.fst, j ∈ (upsert_one store pr.1 pr.2).map Prod.fst :=
      fun j hj => mem_fst_upsert_one_of_mem store pr.1 j pr.2 (h j (by simp [hj]))
    calc (add_texts store (pr :: recs)).length
        = (add_texts (upsert_one store pr.1 pr.2) recs).length := rfl
      _ = (upsert_one store pr.1 pr.2).length := ih _ h2
      _ = store.length := length_upsert_one_of_mem store pr.1 pr.2 h1

/-- C6: record ids are derived deterministically from content — each id is
the entry's name lowercased with spaces replaced by underscores — and
re-running the ingestion batch against a store with upsert-overwrite
semantics leaves the collection size unchanged. -/
theorem c6_deterministic_ids_idempotent (ds : List Entry) (store : VColl) :
    ids ds = ds.map (fun e => (e.name.toLower).replace " " "_") ∧
    (add_texts (add_texts store (ingestion ds)) (ingestion ds)).length =
      (add_texts store (ingestion ds)).length := by
  refine ⟨rfl, ?_⟩
  apply length_add_texts_of_mem
  intro j hj
  exact mem_fst_add_texts_batch (ingestion ds) store j hj

/-- C9: retrieval treats every falsy order value identically — a `None`
order and an empty-string order both produce the empty metadata filter, and
only a non-empty order string produces the `[("order", o)]` exact-match
filter. -/
theorem c9_falsy_order_filter (env : Env) (obs : String) (k : Int) :
    find_similar_entries env obs k none = env.similarity_search obs k [] ∧
    find_similar_entries env obs k (some "") = env.similarity_search obs k [] ∧
    ∀ o : String, o ≠ "" →
      find_similar_entries env obs k (some o) = env.similarity_search obs k [("order", o)] := by
  refine ⟨rfl, rfl, fun o ho => ?_⟩
  simp [find_similar_entries, ho]

/-- Witness for C9, at a concrete empty and a concrete non-empty order. -/
theorem c9_falsy_order_filter_witness :
    find_similar_entries spyEnv "q" 1 (some "") = spyEnv.similarity_search "q" 1 [] ∧
    find_similar_entries spyEnv "q" 1 (some "Coleoptera") =
      spyEnv.similarity_search "q" 1 [("order", "Coleoptera")] :=
  ⟨(c9_falsy_order_filter spyEnv "q" 1).2.1,
   (c9_falsy_order_filter spyEnv "q" 1).2.2 "Coleoptera" (by decide)⟩
